import Mathlib

/-!
Shallow embedding of the Access & Monetization Gate of the
`gurenko-ai-agent-bot` repository (src/main.py and src/db.py).

Conventions of the embedding:
* a `users` row of main.py's SQLite store becomes the structure `User`;
  timestamps (`vip_until`) are integers (seconds), a day lasts 86400
  seconds, and day keys (`last_reset`) are integers as well — both are
  order-isomorphic images of the ISO strings the code stores;
* the referral tables become explicit edge lists;
* external effects (the OpenAI call, the Telegram `get_chat_member`
  call) are passed in as `Except`-valued results, so the error branch of
  the source's `try/except` is the `Except.error` case.
-/

namespace GurenkoBot

/-! ### Configuration constants (env-var defaults in main.py) -/

/-- `DAILY_LIMIT = int(os.getenv("DAILY_LIMIT", "3"))` -/
def DAILY_LIMIT : Nat := 3

/-- `VIP_DAYS = int(os.getenv("VIP_DAYS", "30"))` -/
def VIP_DAYS : Nat := 30

/-- `REF_BONUS_CREDITS = int(os.getenv("REF_BONUS_CREDITS", "5"))` -/
def REF_BONUS_CREDITS : Nat := 5

/-- `REF_VIP_INVITES = int(os.getenv("REF_VIP_INVITES", "3"))` -/
def REF_VIP_INVITES : Nat := 3

/-- `REF_VIP_DAYS = int(os.getenv("REF_VIP_DAYS", "3"))` -/
def REF_VIP_DAYS : Nat := 3

/-- One day of `timedelta(days=1)`, in seconds. -/
def SECONDS_PER_DAY : Nat := 86400

/-! ### Data model: one row of main.py's `users` table
(the fields the gate logic reads/writes). -/

structure User where
  usedToday : Nat
  lastReset : Int
  vipUntil : Option Int
  credits : Nat
deriving DecidableEq, Repr

/-! ### main.py DB helpers -/

/-- `is_vip(row)` of main.py: VIP iff `vip_until` is set and strictly
after `now` (`datetime.fromisoformat(vu) > datetime.now(tz)`).
`row` may be absent (`if not row: return False`). -/
def is_vip (row : Option User) (now : Int) : Bool :=
  match row with
  | Option.none => false
  | Option.some u =>
    match u.vipUntil with
    | Option.none => false
    | Option.some vu => decide (vu > now)

/-- `extend_vip(tg_id, days)` of main.py: the new expiry is
`max(current expiry, now) + days`, where a missing expiry counts as
`now` (`base = cur_until if cur_until > now else now`). -/
def extend_vip (u : User) (now : Int) (days : Nat) : User :=
  let base : Int :=
    match u.vipUntil with
    | Option.none => now
    | Option.some vu => if vu > now then vu else now
  { u with vipUntil := Option.some (base + (days * SECONDS_PER_DAY : Nat)) }

/-- `set_vip(tg_id, days)` of main.py: overwrites the expiry with
`now + days`, regardless of any current expiry. -/
def set_vip (u : User) (now : Int) (days : Nat) : User :=
  { u with vipUntil := Option.some (now + (days * SECONDS_PER_DAY : Nat)) }

/-- `reset_if_needed(tg_id)` of main.py: when the stored `last_reset`
day key differs from today's key, zero `used_today` and stamp the key;
otherwise leave the row alone. -/
def reset_if_needed (u : User) (today : Int) : User :=
  if u.lastReset ≠ today then { u with usedToday := 0, lastReset := today } else u

/-- `inc_usage(tg_id)` of main.py: `used_today = used_today + 1`. -/
def inc_usage (u : User) : User :=
  { u with usedToday := u.usedToday + 1 }

/-- `add_credits(tg_id, n)` of main.py: `credits = credits + n`. -/
def add_credits (u : User) (n : Nat) : User :=
  { u with credits := u.credits + n }

/-- `take_credit_if_any(tg_id)` of main.py: if `credits > 0`, decrement
by one and report `True`; otherwise report `False` and change nothing. -/
def take_credit_if_any (u : User) : Bool × User :=
  if u.credits > 0 then (true, { u with credits := u.credits - 1 }) else (false, u)

/-! ### Referral stores -/

/-- The `referrals` table of main.py: `inviter_id`, and `invited_id`
declared `UNIQUE`. -/
structure Referrals where
  edges : List (Int × Int)
deriving DecidableEq, Repr

/-- `referral_try_add(inviter_id, invited_id)` of main.py: rejects a
self-referral, then the `INSERT` raises `IntegrityError` (caught,
returning `False`) exactly when the `UNIQUE invited_id` constraint is
hit, i.e. when the invited user already appears in any edge. -/
def referral_try_add (s : Referrals) (inviter invited : Int) : Bool × Referrals :=
  if inviter = invited then (false, s)
  else if s.edges.any (fun e => e.2 = invited) then (false, s)
  else (true, { edges := (inviter, invited) :: s.edges })

/-- `referral_count(inviter_id)` of main.py: `COUNT(*)` of edges with
this inviter. -/
def referral_count (s : Referrals) (inviter : Int) : Nat :=
  (s.edges.filter (fun e => e.1 = inviter)).length

namespace DbPy

/-- The `referrals` table of src/db.py: primary key is the pair
`(referrer_id, referred_id)`; there is no uniqueness on `referred_id`
alone. -/
structure Referrals where
  edges : List (Int × Int)
deriving DecidableEq, Repr

/-- `add_referral(referrer_id, referred_id)` of src/db.py: rejects a
self-referral, rejects exactly the already-present `(referrer, referred)`
pair, and otherwise inserts the edge. -/
def add_referral (s : Referrals) (referrer referred : Int) : Bool × Referrals :=
  if referrer = referred then (false, s)
  else if s.edges.any (fun e => e.1 = referrer ∧ e.2 = referred) then (false, s)
  else (true, { edges := (referrer, referred) :: s.edges })

end DbPy

/-! ### start_cmd referral branch (main.py)

`/start ref_<inviter>` handling: try to add the edge; on success,
immediately `add_credits(inviter, REF_BONUS_CREDITS)`, and if the
inviter's referral count has reached `REF_VIP_INVITES`,
`extend_vip(inviter, REF_VIP_DAYS)`. Only the inviter's row is
mutated; the result is the updated referral table and inviter row. -/
def start_cmd_ref (s : Referrals) (inviter invited : Int) (inviterRow : User)
    (now : Int) : Referrals × User :=
  let r := referral_try_add s inviter invited
  if r.1 then
    let row := add_credits inviterRow REF_BONUS_CREDITS
    let cnt := referral_count r.2 inviter
    if cnt ≥ REF_VIP_INVITES then (r.2, extend_vip row now REF_VIP_DAYS)
    else (r.2, row)
  else (s, inviterRow)

/-! ### Payment path (main.py)

`successful_payment` logs the payment (an append to the `payments`
table, not modelled: it feeds no gate decision) and calls
`set_vip(u.id, VIP_DAYS)`. -/
def successful_payment (u : User) (now : Int) : User :=
  set_vip u now VIP_DAYS

/-! ### OpenAI wrapper (main.py `ask_openai`)

The network call either yields the (optional) message content or
raises; the wrapper strips the text, substitutes a fallback for an
empty answer, and catches every exception into a fixed fallback
string. -/

def empty_fallback : String := "Pustoj otvet. Poprobuj pereformulirovat zapros."

def err_fallback : String := "Sejchas ne poluchilos poluchit otvet ot GPT. Poprobuj eshche raz cherez minutu."

def ask_openai (resp : Except String (Option String)) : String :=
  match resp with
  | Except.error _ => err_fallback
  | Except.ok content =>
    let text := (content.getD "").trim
    if text = "" then empty_fallback else text

/-! ### Channel-membership gate (main.py) -/

inductive MemberStatus
  | member
  | administrator
  | creator
  | left
  | kicked
  | restricted
deriving DecidableEq, Repr

/-- `is_subscribed`: `get_chat_member` either yields a status or raises;
any exception is caught and the function returns `False`; otherwise
membership means status in `("member", "administrator", "creator")`. -/
def is_subscribed (check : Except String MemberStatus) : Bool :=
  match check with
  | Except.error _ => false
  | Except.ok st =>
    decide (st = MemberStatus.member ∨ st = MemberStatus.administrator
      ∨ st = MemberStatus.creator)

def sub_prompt_msg : String := "Dlya dostupa podpishis na kanal i nazhmi Proverit podpisku."

/-- `require_sub`: passes through when subscribed, otherwise replies
with the subscribe prompt (a plain message, never a raised exception)
and reports `False`. -/
def require_sub (check : Except String MemberStatus) : Bool × Option String :=
  if is_subscribed check then (true, Option.none)
  else (false, Option.some sub_prompt_msg)

/-! ### The ask-mode gate of `text_msg` (main.py) -/

inductive CostKind
  | bonus
  | quota
  | none
deriving DecidableEq, Repr

inductive GateResult
  | proceed (cost : CostKind) (u : User)
  | deny (msg : String) (u : User)
deriving DecidableEq, Repr

def limit_msg : String := "Limit 3/den ischerpan. Mozhno poluchit bonus-zaprosy cherez Priglasit druga ili vzyat VIP."

/-- The quota/credit gate of `text_msg`'s ask mode, between
`reset_if_needed(u.id)` and the OpenAI call:
if not VIP and `used_today >= DAILY_LIMIT`, try to take a bonus credit
(deny with the limit message when there is none); otherwise the action
passes, charging one quota unit when not VIP and nothing when VIP. -/
def ask_gate (u : User) (today now : Int) : GateResult :=
  let u1 := reset_if_needed u today
  let vip := is_vip (Option.some u1) now
  let used := u1.usedToday
  if vip = false ∧ used ≥ DAILY_LIMIT then
    let t := take_credit_if_any u1
    if t.1 then GateResult.proceed CostKind.bonus t.2
    else GateResult.deny limit_msg u1
  else
    if vip = false then GateResult.proceed CostKind.quota (inc_usage u1)
    else GateResult.proceed CostKind.none u1

/-- The whole ask-mode path of `text_msg`: gate first (its DB writes are
committed), then — only if the gate passed — the OpenAI wrapper runs on
the backend outcome and its string is sent; on denial the limit message
is sent. Returns the final user row and the reply text. -/
def text_msg_ask (u : User) (today now : Int)
    (resp : Except String (Option String)) : User × String :=
  match ask_gate u today now with
  | GateResult.deny msg u1 => (u1, msg)
  | GateResult.proceed _ u1 => (u1, ask_openai resp)

/-! ## Theorems -/

/-- Helper: the expiry written by `extend_vip`, unfolded. -/
theorem extend_vip_vipUntil (u : User) (now : Int) (days : Nat) :
    (extend_vip u now days).vipUntil =
      Option.some ((match u.vipUntil with
        | Option.none => now
        | Option.some vu => if vu > now then vu else now : Int)
        + ((days * SECONDS_PER_DAY : Nat) : Int)) := rfl

/-- C7: when the stored quota day key differs from the caller-supplied
today key, the used-today counter is lazily reset to 0 and the day key
is set to today; when the day key is unchanged, the row is left as is. -/
theorem c7_lazy_quota_reset (u : User) (today : Int) :
    (u.lastReset ≠ today →
      reset_if_needed u today = { u with usedToday := 0, lastReset := today }) ∧
    (u.lastReset = today → reset_if_needed u today = u) := by
  constructor
  · intro h
    simp [reset_if_needed, h]
  · intro h
    simp [reset_if_needed, h]

theorem c7_lazy_quota_reset_witness :
    reset_if_needed ⟨7, 0, Option.none, 2⟩ 1 = ⟨0, 1, Option.none, 2⟩ ∧
    reset_if_needed ⟨7, 0, Option.none, 2⟩ 0 = ⟨7, 0, Option.none, 2⟩ :=
  ⟨(c7_lazy_quota_reset ⟨7, 0, Option.none, 2⟩ 1).1 (by decide),
   (c7_lazy_quota_reset ⟨7, 0, Option.none, 2⟩ 0).2 (by decide)⟩

/-- C8: `extend_vip` is monotonic — a second extension with any
nonnegative day count never shortens the VIP window produced by the
first extension. -/
theorem c8_extend_vip_monotonic (u : User) (t1 t2 : Int) (d1 d2 : Nat) (v1 v2 : Int)
    (h1 : (extend_vip u t1 d1).vipUntil = Option.some v1)
    (h2 : (extend_vip (extend_vip u t1 d1) t2 d2).vipUntil = Option.some v2) :
    v1 ≤ v2 := by
  rw [extend_vip_vipUntil] at h2
  rw [h1] at h2
  simp only [Option.some.injEq] at h2
  have hd : (0 : Int) ≤ ((d2 * SECONDS_PER_DAY : Nat) : Int) := Int.ofNat_nonneg _
  by_cases hgt : v1 > t2
  · rw [if_pos hgt] at h2
    omega
  · rw [if_neg hgt] at h2
    omega

theorem c8_extend_vip_monotonic_witness : (86400 : Int) ≤ 172800 :=
  c8_extend_vip_monotonic ⟨0, 0, Option.none, 0⟩ 0 0 1 1 86400 172800
    (by decide) (by decide)

/-- C9: when the external channel-membership check raises, the gate
consumes `false` (fail closed): `require_sub` denies access with the
subscribe prompt instead of granting it, and no exception propagates
(the model's codomain has no error case). -/
theorem c9_membership_fail_closed (e : String) :
    is_subscribed (Except.error e) = false ∧
    require_sub (Except.error e) = (false, Option.some sub_prompt_msg) := by
  exact ⟨rfl, rfl⟩

/-- C2 counterexample: a confirmed payment at `now = 0` for an account
whose VIP already runs to `10000000` rewrites the expiry to
`30 * 86400 = 2592000` — strictly earlier than before, and not the
claimed `max(vipUntil, now) + planDays = 12592000`. -/
theorem c2_counterexample :
    successful_payment ⟨0, 0, Option.some 10000000, 0⟩ 0 =
      ⟨0, 0, Option.some 2592000, 0⟩ ∧ (2592000 : Int) < 10000000 := by
  exact ⟨rfl, by decide⟩

/-- C2 amended: the payment entry point (`successful_payment`, via
`set_vip`) overwrites the VIP expiry with `now + VIP_DAYS` days,
discarding any current expiry — sequential purchases do not stack. -/
theorem c2_amended_payment_overwrites (u : User) (now : Int) :
    successful_payment u now =
      { u with vipUntil := Option.some (now + (VIP_DAYS * SECONDS_PER_DAY : Nat)) } := rfl

/-- C1 counterexample: a non-VIP account holding 5 bonus credits with
no usage today is charged `quota` (the counter goes 0 → 1 and the
credits stay 5), so bonus credits are not spent before quota. -/
theorem c1_counterexample :
    (5 : Nat) > 0 ∧
    ask_gate ⟨0, 0, Option.none, 5⟩ 0 0 =
      GateResult.proceed CostKind.quota ⟨1, 0, Option.none, 5⟩ := by
  exact ⟨by decide, by decide⟩

/-- C1 amended: for a non-VIP account the daily quota is spent first;
a bonus credit is consumed only once the effective usage has reached
`DAILY_LIMIT`, and while usage is below the limit the action is charged
to quota even when bonus credits are available. -/
theorem c1_amended_quota_before_bonus (u : User) (today now : Int)
    (hvip : is_vip (Option.some (reset_if_needed u today)) now = false) :
    (DAILY_LIMIT ≤ (reset_if_needed u today).usedToday →
      0 < (reset_if_needed u today).credits →
      ask_gate u today now = GateResult.proceed CostKind.bonus
        { reset_if_needed u today with
            credits := (reset_if_needed u today).credits - 1 }) ∧
    ((reset_if_needed u today).usedToday < DAILY_LIMIT →
      ask_gate u today now =
        GateResult.proceed CostKind.quota (inc_usage (reset_if_needed u today))) := by
  constructor
  · intro hused hcred
    simp [ask_gate, hvip, take_credit_if_any, hused, hcred]
  · intro hused
    have h1 : ¬ DAILY_LIMIT ≤ (reset_if_needed u today).usedToday := not_le.mpr hused
    simp [ask_gate, hvip, h1]

theorem c1_amended_quota_before_bonus_witness :
    ask_gate ⟨3, 0, Option.none, 5⟩ 0 0 =
      GateResult.proceed CostKind.bonus ⟨3, 0, Option.none, 4⟩ ∧
    ask_gate ⟨0, 0, Option.none, 5⟩ 0 0 =
      GateResult.proceed CostKind.quota ⟨1, 0, Option.none, 5⟩ :=
  ⟨(c1_amended_quota_before_bonus ⟨3, 0, Option.none, 5⟩ 0 0 (by decide)).1
      (by decide) (by decide),
   (c1_amended_quota_before_bonus ⟨0, 0, Option.none, 5⟩ 0 0 (by decide)).2 (by decide)⟩

/-- C4 counterexample: a VIP account with no bonus credits whose usage
already equals `DAILY_LIMIT` is still allowed, with `costKind = none`
and no quota increment — there is no VIP daily limit and an allowed
VIP action is never charged to quota, contrary to the claim. -/
theorem c4_counterexample :
    ask_gate ⟨3, 0, Option.some 100, 0⟩ 0 0 =
      GateResult.proceed CostKind.none ⟨3, 0, Option.some 100, 0⟩ ∧
    CostKind.none ≠ CostKind.quota := by
  exact ⟨by decide, by decide⟩

/-- C4 amended: for an account with no bonus credits, if it is not VIP
the action is allowed with `costKind = quota` exactly when effective
usage is below `DAILY_LIMIT`, and denied with the limit message at or
above it; a VIP account is always allowed with `costKind = none` and no
charge (there is no VIP daily limit). -/
theorem c4_amended_quota_limit (u : User) (today now : Int)
    (hcred : (reset_if_needed u today).credits = 0) :
    (is_vip (Option.some (reset_if_needed u today)) now = false →
      ((reset_if_needed u today).usedToday < DAILY_LIMIT →
        ask_gate u today now =
          GateResult.proceed CostKind.quota (inc_usage (reset_if_needed u today))) ∧
      (DAILY_LIMIT ≤ (reset_if_needed u today).usedToday →
        ask_gate u today now = GateResult.deny limit_msg (reset_if_needed u today))) ∧
    (is_vip (Option.some (reset_if_needed u today)) now = true →
      ask_gate u today now =
        GateResult.proceed CostKind.none (reset_if_needed u today)) := by
  constructor
  · intro hvip
    constructor
    · intro hused
      have h1 : ¬ DAILY_LIMIT ≤ (reset_if_needed u today).usedToday := not_le.mpr hused
      simp [ask_gate, hvip, h1]
    · intro hused
      simp [ask_gate, hvip, take_credit_if_any, hused, hcred]
  · intro hvip
    simp [ask_gate, hvip]

theorem c4_amended_quota_limit_witness :
    ask_gate ⟨2, 0, Option.none, 0⟩ 0 0 =
      GateResult.proceed CostKind.quota ⟨3, 0, Option.none, 0⟩ ∧
    ask_gate ⟨3, 0, Option.none, 0⟩ 0 0 =
      GateResult.deny limit_msg ⟨3, 0, Option.none, 0⟩ ∧
    ask_gate ⟨3, 0, Option.some 100, 0⟩ 0 0 =
      GateResult.proceed CostKind.none ⟨3, 0, Option.some 100, 0⟩ :=
  ⟨((c4_amended_quota_limit ⟨2, 0, Option.none, 0⟩ 0 0 (by decide)).1 (by decide)).1
      (by decide),
   ((c4_amended_quota_limit ⟨3, 0, Option.none, 0⟩ 0 0 (by decide)).1 (by decide)).2
      (by decide),
   (c4_amended_quota_limit ⟨3, 0, Option.some 100, 0⟩ 0 0 (by decide)).2 (by decide)⟩

/-- C3 counterexample: registering the very first referral edge
`(1, 2)` during `/start` immediately raises the referrer's credits from
0 to `REF_BONUS_CREDITS = 5`, with no verification event of any kind in
between — registration by itself grants the reward. -/
theorem c3_counterexample :
    (start_cmd_ref ⟨[]⟩ 1 2 ⟨0, 0, Option.none, 0⟩ 0).1.edges = [(1, 2)] ∧
    (start_cmd_ref ⟨[]⟩ 1 2 ⟨0, 0, Option.none, 0⟩ 0).2.credits = 5 := by
  exact ⟨by decide, by decide⟩

/-- C3 amended: the referrer's reward is granted immediately and
exactly when the edge registration succeeds in the `/start` handler
(there is no verification step); it still happens at most once per
referred user, because a registration for an already-referred user is
rejected and changes nothing. -/
theorem c3_amended_reward_at_registration (s : Referrals) (inviter invited : Int)
    (row : User) (now : Int) :
    ((referral_try_add s inviter invited).1 = false →
      start_cmd_ref s inviter invited row now = (s, row)) ∧
    ((referral_try_add s inviter invited).1 = true →
      (start_cmd_ref s inviter invited row now).2.credits =
        row.credits + REF_BONUS_CREDITS) ∧
    (s.edges.any (fun e => e.2 = invited) = true →
      start_cmd_ref s inviter invited row now = (s, row)) := by
  refine ⟨?_, ?_, ?_⟩
  · intro h
    simp [start_cmd_ref, h]
  · intro h
    simp only [start_cmd_ref, h]
    split_ifs <;> simp_all [extend_vip, add_credits]
  · intro h
    have hfalse : (referral_try_add s inviter invited).1 = false := by
      unfold referral_try_add
      split_ifs <;> simp_all
    simp [start_cmd_ref, hfalse]

theorem c3_amended_reward_at_registration_witness :
    start_cmd_ref ⟨[(1, 2)]⟩ 3 2 ⟨0, 0, Option.none, 7⟩ 0 =
      (⟨[(1, 2)]⟩, ⟨0, 0, Option.none, 7⟩) ∧
    (start_cmd_ref ⟨[]⟩ 1 2 ⟨0, 0, Option.none, 0⟩ 0).2.credits =
      0 + REF_BONUS_CREDITS :=
  ⟨(c3_amended_reward_at_registration ⟨[(1, 2)]⟩ 3 2 ⟨0, 0, Option.none, 7⟩ 0).2.2
      (by decide),
   (c3_amended_reward_at_registration ⟨[]⟩ 1 2 ⟨0, 0, Option.none, 0⟩ 0).2.1
      (by decide)⟩

/-- C5 counterexample: a fourth successful referral (count 4, not a
multiple of `REF_VIP_INVITES = 3`, so not "crossing a milestone" of
every Kth referral) still extends the referrer's VIP, to
`3 * 86400 = 259200`. -/
theorem c5_counterexample :
    referral_count
      (start_cmd_ref ⟨[(1, 10), (1, 11), (1, 12)]⟩ 1 13 ⟨0, 0, Option.none, 0⟩ 0).1 1
      = 4 ∧
    (4 : Nat) % REF_VIP_INVITES ≠ 0 ∧
    (start_cmd_ref ⟨[(1, 10), (1, 11), (1, 12)]⟩ 1 13 ⟨0, 0, Option.none, 0⟩ 0).2.vipUntil
      = Option.some 259200 := by
  exact ⟨by decide, by decide, by decide⟩

/-- C5 amended: a successful registration raises the referrer's count
by one, and the VIP extension is granted on *every* successful referral
whose resulting count is at least `REF_VIP_INVITES` (not only at exact
multiples); below the threshold only the flat bonus credits are
granted. -/
theorem c5_amended_vip_from_threshold (s : Referrals) (inviter invited : Int)
    (row : User) (now : Int)
    (h : (referral_try_add s inviter invited).1 = true) :
    referral_count (referral_try_add s inviter invited).2 inviter =
      referral_count s inviter + 1 ∧
    (REF_VIP_INVITES ≤ referral_count (referral_try_add s inviter invited).2 inviter →
      (start_cmd_ref s inviter invited row now).2 =
        extend_vip (add_credits row REF_BONUS_CREDITS) now REF_VIP_DAYS) ∧
    (referral_count (referral_try_add s inviter invited).2 inviter < REF_VIP_INVITES →
      (start_cmd_ref s inviter invited row now).2 =
        add_credits row REF_BONUS_CREDITS) := by
  have hsnd : (referral_try_add s inviter invited).2 =
      ⟨(inviter, invited) :: s.edges⟩ := by
    unfold referral_try_add at h ⊢
    split_ifs at h ⊢
    simp_all
  refine ⟨?_, ?_, ?_⟩
  · rw [hsnd]
    simp [referral_count]
  · intro hge
    simp [start_cmd_ref, h, hge]
  · intro hlt
    have h1 : ¬ REF_VIP_INVITES ≤
        referral_count (referral_try_add s inviter invited).2 inviter :=
      not_le.mpr hlt
    simp [start_cmd_ref, h, h1]

theorem c5_amended_vip_from_threshold_witness :
    referral_count (referral_try_add ⟨[(1, 10), (1, 11)]⟩ 1 12).2 1 =
      referral_count ⟨[(1, 10), (1, 11)]⟩ 1 + 1 ∧
    (start_cmd_ref ⟨[(1, 10), (1, 11)]⟩ 1 12 ⟨0, 0, Option.none, 0⟩ 0).2 =
      extend_vip (add_credits ⟨0, 0, Option.none, 0⟩ REF_BONUS_CREDITS) 0 REF_VIP_DAYS :=
  ⟨(c5_amended_vip_from_threshold ⟨[(1, 10), (1, 11)]⟩ 1 12 ⟨0, 0, Option.none, 0⟩ 0
      (by decide)).1,
   (c5_amended_vip_from_threshold ⟨[(1, 10), (1, 11)]⟩ 1 12 ⟨0, 0, Option.none, 0⟩ 0
      (by decide)).2.1 (by decide)⟩

/-- C6 counterexample: in src/db.py's `add_referral`, with referrer 1
already recorded for referred user 2, a *different* referrer 3 can
still register the same referred user: the call returns
`applied = true` and a second edge for user 2 is stored. -/
theorem c6_counterexample :
    (DbPy.add_referral ⟨[(1, 2)]⟩ 3 2).1 = true ∧
    (DbPy.add_referral ⟨[(1, 2)]⟩ 3 2).2.edges = [(3, 2), (1, 2)] := by
  exact ⟨by decide, by decide⟩

/-- C6 amended: both registration functions reject self-referrals.
main.py's `referral_try_add` is first-writer-wins per referred user —
once any edge exists for a referred user, every later registration,
by any referrer, returns `applied = false` and leaves the store
unchanged. src/db.py's `add_referral` only rejects an exact duplicate
`(referrer, referred)` pair, so a different referrer can still register
the same referred user. -/
theorem c6_amended_first_writer_semantics (s : Referrals) (t : DbPy.Referrals)
    (a b x y : Int) :
    (referral_try_add s x x).1 = false ∧
    (s.edges.any (fun e => e.2 = x) = true → referral_try_add s b x = (false, s)) ∧
    (DbPy.add_referral t y y).1 = false ∧
    (t.edges.any (fun e => e.1 = a ∧ e.2 = x) = true →
      DbPy.add_referral t a x = (false, t)) := by
  refine ⟨?_, ?_, ?_, ?_⟩
  · unfold referral_try_add
    simp
  · intro h
    unfold referral_try_add
    split_ifs <;> simp_all
  · unfold DbPy.add_referral
    simp
  · intro h
    unfold DbPy.add_referral
    split_ifs <;> simp_all

theorem c6_amended_first_writer_semantics_witness :
    referral_try_add ⟨[(1, 2)]⟩ 3 2 = (false, ⟨[(1, 2)]⟩) ∧
    DbPy.add_referral ⟨[(1, 2)]⟩ 1 2 = (false, ⟨[(1, 2)]⟩) :=
  ⟨(c6_amended_first_writer_semantics ⟨[(1, 2)]⟩ ⟨[(1, 2)]⟩ 1 3 2 0).2.1 (by decide),
   (c6_amended_first_writer_semantics ⟨[(1, 2)]⟩ ⟨[(1, 2)]⟩ 1 3 2 0).2.2.2 (by decide)⟩

/-- C10: the quota increment / bonus decrement decided by the gate is
committed independently of the AI backend outcome (the final user row
does not depend on the backend result, so a failed call is not
refunded); the `ask_openai` wrapper maps every raised exception to the
fixed fallback string; and on a passed gate with a failing backend the
user keeps the charged row and receives the fallback message. -/
theorem c10_charge_before_backend (u : User) (today now : Int)
    (r1 r2 : Except String (Option String)) (e : String) :
    ask_openai (Except.error e) = err_fallback ∧
    (text_msg_ask u today now r1).1 = (text_msg_ask u today now r2).1 ∧
    (∀ u1, ask_gate u today now = GateResult.proceed CostKind.quota u1 →
      u1.usedToday = (reset_if_needed u today).usedToday + 1) ∧
    (∀ u1, ask_gate u today now = GateResult.proceed CostKind.bonus u1 →
      u1.credits + 1 = (reset_if_needed u today).credits) ∧
    (∀ cost u1, ask_gate u today now = GateResult.proceed cost u1 →
      text_msg_ask u today now (Except.error e) = (u1, err_fallback)) := by
  refine ⟨rfl, ?_, ?_, ?_, ?_⟩
  · cases h : ask_gate u today now <;> simp [text_msg_ask, h]
  · intro u1 h
    simp only [ask_gate] at h
    by_cases h1 : is_vip (Option.some (reset_if_needed u today)) now = false ∧
        (reset_if_needed u today).usedToday ≥ DAILY_LIMIT
    · rw [if_pos h1] at h
      by_cases h2 : (take_credit_if_any (reset_if_needed u today)).1 = true
      · rw [if_pos h2] at h
        exact absurd h (by simp)
      · rw [if_neg h2] at h
        exact absurd h (by simp)
    · rw [if_neg h1] at h
      by_cases h3 : is_vip (Option.some (reset_if_needed u today)) now = false
      · rw [if_pos h3] at h
        simp only [GateResult.proceed.injEq] at h
        rw [← h.2]
        rfl
      · rw [if_neg h3] at h
        exact absurd h (by simp)
  · intro u1 h
    simp only [ask_gate] at h
    by_cases h1 : is_vip (Option.some (reset_if_needed u today)) now = false ∧
        (reset_if_needed u today).usedToday ≥ DAILY_LIMIT
    · rw [if_pos h1] at h
      by_cases hc : 0 < (reset_if_needed u today).credits
      · have ht : take_credit_if_any (reset_if_needed u today) =
            (true, { reset_if_needed u today with
                credits := (reset_if_needed u today).credits - 1 }) := by
          unfold take_credit_if_any
          rw [if_pos hc]
        rw [ht] at h
        simp at h
        subst h
        dsimp only
        omega
      · have ht : take_credit_if_any (reset_if_needed u today) =
            (false, reset_if_needed u today) := by
          unfold take_credit_if_any
          rw [if_neg hc]
        rw [ht] at h
        exact absurd h (by simp)
    · rw [if_neg h1] at h
      by_cases h3 : is_vip (Option.some (reset_if_needed u today)) now = false
      · rw [if_pos h3] at h
        exact absurd h (by simp)
      · rw [if_neg h3] at h
        exact absurd h (by simp)
  · intro cost u1 h
    simp [text_msg_ask, h, ask_openai]

theorem c10_charge_before_backend_witness :
    ask_openai (Except.error "boom") = err_fallback ∧
    text_msg_ask ⟨0, 0, Option.none, 0⟩ 0 0 (Except.error "boom") =
      (⟨1, 0, Option.none, 0⟩, err_fallback) :=
  ⟨(c10_charge_before_backend ⟨0, 0, Option.none, 0⟩ 0 0 (Except.ok (Option.some "hi"))
      (Except.ok Option.none) "boom").1,
   (c10_charge_before_backend ⟨0, 0, Option.none, 0⟩ 0 0 (Except.ok (Option.some "hi"))
      (Except.ok Option.none) "boom").2.2.2.2 CostKind.quota ⟨1, 0, Option.none, 0⟩
      (by decide)⟩

end GurenkoBot
